import Mathlib

/-!
Verification development for the market-niche research pipeline
(backend/services/agentOrchestrator.js and its collaborators).

The orchestrator is a fixed four-node linear pipeline
(scout → brain → validate → brief) over an accumulating run state.
External collaborators (Bright Data search/scrape, OpenAI reasoning,
ActionBook/Puppeteer browser checks, Acontext memory) are modelled as an
environment `Env` supplying the outcome of each external call site:
a call that can reject in JS becomes an `Except String α` value, a call
that never rejects (because the service module catches internally and
falls back) becomes a total value.  Everything the repository itself
computes (control flow, state merging, event emission, the in-process
report store and task-block maps, validation in the HTTP route) is
translated directly from the source.

Conventions:
  - `emit(type, payload)` wraps `emitter.emit` and decorates every event
    with `runId` and a timestamp; those constant per-run decorations are
    omitted and an event is its type plus the payload fields the
    specification talks about.
  - JS `Map` objects become association lists with upsert `mapSet` and
    lookup `mapGet`.
  - Wall-clock reads (`new Date().toISOString()`, `Date.now()`) are
    supplied by the environment (`Env.now`, `Env.nowMs`).
-/

namespace AgentForge

/-- Phases of the LangGraph pipeline (nodes scout, brain, validate, brief). -/
inductive Phase
  | scout
  | brain
  | validate
  | brief
deriving DecidableEq, Repr

/-- One search hit, as produced by searchRedditPainPoints in
brightDataService.js: an object with url, title and snippet. -/
structure SearchResult where
  url : String
  title : String
  snippet : String
deriving DecidableEq, Repr

/-- One scraped post (url, title, snippet plus fetched text content),
as produced by scrapeRedditPosts. -/
structure Post where
  url : String
  title : String
  snippet : String
  content : String
deriving DecidableEq, Repr

/-- One extracted pain point (llmService extractPainPoints output);
only the problem field is inspected by the orchestrator. -/
structure PainPoint where
  problem : String
deriving DecidableEq, Repr

/-- The ranked top problem (llmService rankAndSelectProblem output);
the orchestrator reads top_problem and gap_keyword. -/
structure TopProblem where
  top_problem : String
  gap_keyword : String
deriving DecidableEq, Repr

/-- One competitor check result as returned by verifyAllCompetitors in
actionbookService.js (fields the orchestrator reads or rewrites). -/
structure CompetitorResult where
  name : String
  pricingUrl : String
  success : Bool
  notes : String
  screenshot : Option String
  scrapedContent : Option String
deriving DecidableEq, Repr

/-- Gap-analysis verdict (llmService analyseCompetitorData output). -/
structure GapAnalysis where
  gap_confirmed : Bool
  confidence : String
  gap_summary : String
deriving DecidableEq, Repr

/-- The final opportunity brief (llmService generateOpportunityBrief
output); the orchestrator reads the headline. -/
structure Brief where
  headline : String
deriving DecidableEq, Repr

/-- One accumulated error entry: nodes push { phase, message }. -/
structure PhaseError where
  phase : Phase
  message : String
deriving DecidableEq, Repr

/-- One task block of acontextService.js ({ id, label, status }). -/
structure TaskBlock where
  id : String
  label : String
  status : String
deriving DecidableEq, Repr

/-- Association-list embedding of a JS Map: upsert. -/
def mapSet {κ α : Type} [DecidableEq κ] (m : List (κ × α)) (k : κ) (v : α) :
    List (κ × α) :=
  match m with
  | [] => [(k, v)]
  | (k0, v0) :: rest =>
      if k0 = k then (k, v) :: rest else (k0, v0) :: mapSet rest k v

/-- Association-list embedding of a JS Map: lookup (undefined = none). -/
def mapGet {κ α : Type} [DecidableEq κ] (m : List (κ × α)) (k : κ) : Option α :=
  match m with
  | [] => none
  | (k0, v0) :: rest => if k0 = k then some v0 else mapGet rest k

/-- Report blob held in acontextService's in-process reportStore.
writeReport merges JS objects by spread, so every field is optional and
a write overrides exactly the keys present in the patch. -/
structure Report where
  runId : Option Nat := none
  niche : Option String := none
  sessionId : Option String := none
  spaceId : Option (Option String) := none
  status : Option String := none
  painPoints : Option (List PainPoint) := none
  topProblem : Option (Option TopProblem) := none
  competitorResults : Option (List CompetitorResult) := none
  gapAnalysis : Option (Option GapAnalysis) := none
  opportunityBrief : Option (Option Brief) := none
  completedAt : Option String := none
  taskBlocks : Option (List TaskBlock) := none
  updatedAt : Option String := none
deriving DecidableEq, Repr

/-- Spread-merge of two report objects, mirroring
\x7b ...reportStore.get(sessionId), ...reportData \x7d in writeReport:
a key present in the patch wins, otherwise the old value is kept. -/
def Report.merge (old patch : Report) : Report where
  runId := patch.runId.orElse fun _ => old.runId
  niche := patch.niche.orElse fun _ => old.niche
  sessionId := patch.sessionId.orElse fun _ => old.sessionId
  spaceId := patch.spaceId.orElse fun _ => old.spaceId
  status := patch.status.orElse fun _ => old.status
  painPoints := patch.painPoints.orElse fun _ => old.painPoints
  topProblem := patch.topProblem.orElse fun _ => old.topProblem
  competitorResults := patch.competitorResults.orElse fun _ => old.competitorResults
  gapAnalysis := patch.gapAnalysis.orElse fun _ => old.gapAnalysis
  opportunityBrief := patch.opportunityBrief.orElse fun _ => old.opportunityBrief
  completedAt := patch.completedAt.orElse fun _ => old.completedAt
  taskBlocks := patch.taskBlocks.orElse fun _ => old.taskBlocks
  updatedAt := patch.updatedAt.orElse fun _ => old.updatedAt

/-- Module-level mutable state of acontextService.js: the reportStore
map and the per-session task-block map. -/
structure World where
  reportStore : List (String × Report) := []
  taskState : List (String × List TaskBlock) := []
deriving Repr

/-- Local (always-performed) half of writeReport in acontextService.js:
reportStore.set(sessionId, merge) with updatedAt stamped.  The remote
storeMessage that follows may still reject; call sites model that
rejection with a separate Env field, so the store update survives a
writeReport that throws — exactly as in the source. -/
def writeReportLocal (w : World) (sessionId : String) (patch : Report)
    (now : String) : World :=
  let old := (mapGet w.reportStore sessionId).getD {}
  let merged := { Report.merge old patch with updatedAt := some now }
  { w with reportStore := mapSet w.reportStore sessionId merged }

/-- readReport in acontextService.js: reportStore.get(sessionId) ?? null. -/
def readReport (w : World) (sessionId : String) : Option Report :=
  mapGet w.reportStore sessionId

/-- Default task blocks of acontextService.js. -/
def taskBlocks : List TaskBlock :=
  [ { id := "extract_pain_points", label := "Extract Pain Points", status := "pending" },
    { id := "rank_and_select", label := "Rank and Select Top Problem", status := "pending" },
    { id := "verify_competitor_gaps", label := "Verify Competitor Gaps", status := "pending" },
    { id := "generate_opportunity_brief", label := "Generate Opportunity Brief", status := "pending" } ]

/-- initTaskBlocks: taskState.set(sessionId, fresh copy of taskBlocks). -/
def initTaskBlocks (w : World) (sessionId : String) : World :=
  { w with taskState := mapSet w.taskState sessionId taskBlocks }

/-- updateTaskBlock: find the block by id in the session entry and set
its status; a missing session entry is a no-op. -/
def updateTaskBlock (w : World) (sessionId taskId status : String) : World :=
  match mapGet w.taskState sessionId with
  | none => w
  | some blocks =>
      let blocks2 := blocks.map fun t =>
        if t.id = taskId then { t with status := status } else t
      { w with taskState := mapSet w.taskState sessionId blocks2 }

/-- getTaskBlocks: taskState.get(sessionId) ?? []. -/
def getTaskBlocks (w : World) (sessionId : String) : List TaskBlock :=
  (mapGet w.taskState sessionId).getD []

/-- URL-dedup filter at the end of searchRedditPainPoints in
brightDataService.js: a stateful filter that drops an entry whose url is
falsy (empty) or already seen.  The seen set is the accumulator. -/
def uniqueByUrl : List SearchResult → List String → List SearchResult
  | [], _ => []
  | r :: rs, seen =>
      if r.url = "" ∨ r.url ∈ seen then uniqueByUrl rs seen
      else r :: uniqueByUrl rs (r.url :: seen)

/-- dedupeBy from utils/helpers.js, specialised to string keys: keep
the first occurrence of each key. -/
def dedupeBy {α : Type} (arr : List α) (keyFn : α → String) : List α :=
  go arr []
where
  /-- Recursion with the seen set made explicit. -/
  go : List α → List String → List α
    | [], _ => []
    | x :: xs, seen =>
        if keyFn x ∈ seen then go xs seen
        else x :: go xs (keyFn x :: seen)

/-- Embedding of the JS String.prototype.trim() builtin: drop leading
and trailing whitespace.  Defined by structural recursion on the
character list so that it evaluates inside the kernel. -/
def jsTrim (s : String) : String :=
  ⟨((s.data.dropWhile Char.isWhitespace).reverse.dropWhile
      Char.isWhitespace).reverse⟩

/-- Progress-stream events (type plus the payload fields the claims
talk about); the emit wrapper in runGraph additionally stamps runId and
a timestamp onto every event, which is constant decoration and omitted. -/
inductive Ev
  | run_start
  | session_created (sessionId : String) (spaceId : Option String)
  | phase_start (p : Phase)
  | search_complete (count : Nat)
  | scrape_complete (count : Nat)
  | task_update (taskId : String) (status : String)
  | pain_points_extracted (count : Nat)
  | top_problem_selected
  | browser_action
  | gap_analysis_complete
  | phase_warning (p : Phase) (message : String)
  | phase_complete (p : Phase)
  | report_ready (report : Option Report)
  | error (message : String)
  | done (warnings : Option Nat) (durationMs : Option Int)
deriving DecidableEq, Repr

/-- Environment: outcome of every external call site of one run, in
program order.  A JS call that can reject is an Except value (error =
the rejection message); a call whose service module catches internally
and falls back is total.  storeMessage sites are Except String Unit. -/
structure Env where
  /-- createSession in acontextService (returns the session id); it can
  reject, e.g. when ACONTEXT_API_KEY is absent getClient throws. -/
  createSession : Except String String := .ok "session-1"
  /-- Outcome of client.learningSpaces.create/learn inside
  createLearningSpace (the space id on success). -/
  createSpace : Except String String := .ok "space-1"
  /-- Remote half of the bootstrap writeReport in runGraph. -/
  bootWrite : Except String Unit := .ok ()
  /-- Union of the search-strategy outputs collected in allResults by
  searchRedditPainPoints, before its URL dedup filter. -/
  scoutAllResults : List SearchResult := []
  /-- scrapeRedditPosts: never rejects (each URL is fetched under its
  own try with snippet fallback), so it is a total function. -/
  scrapePosts : List SearchResult → List Post := fun _ => []
  /-- cleanAndFilterPosts internals: error = callGPT threw (caught in
  that function), ok none = parse was not an array, ok (some urls) =
  the keep_urls list returned by the model. -/
  cleanKeep : Except String (Option (List String)) := .ok none
  /-- storeMessage at the end of the scout try block. -/
  scoutStore : Except String Unit := .ok ()
  /-- extractPainPoints (rejects when OPENAI_API_KEY is absent or the
  API call fails; JSON-parse fallbacks are internal to the ok value). -/
  extract : Except String (List PainPoint) := .ok []
  /-- First storeMessage of the brain try block. -/
  brainStore1 : Except String Unit := .ok ()
  /-- Remote half of writeReport \x7b painPoints \x7d. -/
  brainWrite1 : Except String Unit := .ok ()
  /-- rankAndSelectProblem (ok none = unexpected format → null). -/
  rank : Except String (Option TopProblem) := .ok none
  /-- Second storeMessage of the brain try block. -/
  brainStore2 : Except String Unit := .ok ()
  /-- Remote half of writeReport \x7b topProblem \x7d. -/
  brainWrite2 : Except String Unit := .ok ()
  /-- Number of browser_action events checkCompetitorGap emitted
  through the forwarding callback before verifyAllCompetitors settled. -/
  verifyEmits : Nat := 0
  /-- verifyAllCompetitors result (its per-competitor browser errors
  are caught internally; a rejection models a failure escaping it). -/
  verifyAll : Except String (List CompetitorResult) := .ok []
  /-- scrapeCompetitorPage: total (internal catch), success flag and
  scraped content per URL. -/
  scrapeCompetitor : String → Bool × String := fun _ => (false, "")
  /-- analyseCompetitorData (parse fallback internal to the ok value). -/
  analyse : Except String GapAnalysis :=
    .ok { gap_confirmed := false, confidence := "low", gap_summary := "" }
  /-- storeMessage of the validate try block. -/
  valStore : Except String Unit := .ok ()
  /-- Remote half of writeReport \x7b competitorResults, gapAnalysis \x7d. -/
  valWrite : Except String Unit := .ok ()
  /-- generateOpportunityBrief (degraded-brief fallback internal). -/
  genBrief : Except String Brief := .ok { headline := "" }
  /-- flushAndSummarise. -/
  flush : Except String Unit := .ok ()
  /-- Remote half of the final writeReport of the brief try block. -/
  briefWrite : Except String Unit := .ok ()
  /-- storeMessage of the brief try block. -/
  briefStore : Except String Unit := .ok ()
  /-- Wall clock as an ISO string (new Date().toISOString()). -/
  now : String := "2026-01-01T00:00:00.000Z"
  /-- Wall clock in milliseconds at run end (Date.now() in the done
  payload computation). -/
  nowMs : Int := 0
  /-- Parsed start timestamp of the run record
  (new Date(startedAt).getTime()). -/
  startedAtMs : Int := 0

/-- searchRedditPainPoints in brightDataService.js: empty-niche guard,
then the union of the strategy outputs (supplied by the environment)
passed through the URL dedup filter. -/
def searchRedditPainPoints (env : Env) (niche : String) : List SearchResult :=
  if jsTrim niche = "" then []
  else uniqueByUrl env.scoutAllResults []

/-- cleanAndFilterPosts in llmService.js: on a successful call whose
keep_urls parses as an array, keep the posts whose url is listed and
fall back to the raw list when fewer than 5 survive; any failure
(caught inside the function) returns the raw list. -/
def cleanAndFilterPosts (env : Env) (rawPosts : List Post) : List Post :=
  match env.cleanKeep with
  | .error _ => rawPosts
  | .ok none => rawPosts
  | .ok (some keepUrls) =>
      let filtered := rawPosts.filter fun p => p.url ∈ keepUrls
      if 5 ≤ filtered.length then filtered else rawPosts

/-- AgentState of the LangGraph Annotation.Root schema (the emit field
is the event sink threaded through state in the source; events are
returned alongside the state here instead). -/
structure AgentState where
  runId : Nat := 0
  niche : String := ""
  sessionId : String := ""
  spaceId : Option String := none
  searchResults : List SearchResult := []
  rawPosts : List Post := []
  painPoints : List PainPoint := []
  topProblem : Option TopProblem := none
  competitorResults : List CompetitorResult := []
  gapAnalysis : Option GapAnalysis := none
  opportunityBrief : Option Brief := none
  errors : List PhaseError := []
deriving DecidableEq, Repr

/-- Partial state update returned by a node: none = field absent from
the returned object (reducer keeps the old value), some = field present
(last-write-wins reducer replaces).  errors uses the accumulate reducer
so it is a plain list to be appended. -/
structure StateUpdate where
  searchResults : Option (List SearchResult) := none
  rawPosts : Option (List Post) := none
  painPoints : Option (List PainPoint) := none
  topProblem : Option (Option TopProblem) := none
  competitorResults : Option (List CompetitorResult) := none
  gapAnalysis : Option (Option GapAnalysis) := none
  opportunityBrief : Option (Option Brief) := none
  errors : List PhaseError := []
deriving Repr

/-- LangGraph merge of a partial node update into the running state:
every field has the replace reducer (fun (_, v) => v) except errors,
whose reducer is (fun (acc, v) => [...acc, ...v]). -/
def applyUpdate (s : AgentState) (u : StateUpdate) : AgentState :=
  { s with
    searchResults := u.searchResults.getD s.searchResults
    rawPosts := u.rawPosts.getD s.rawPosts
    painPoints := u.painPoints.getD s.painPoints
    topProblem := u.topProblem.getD s.topProblem
    competitorResults := u.competitorResults.getD s.competitorResults
    gapAnalysis := u.gapAnalysis.getD s.gapAnalysis
    opportunityBrief := u.opportunityBrief.getD s.opportunityBrief
    errors := s.errors ++ u.errors }

/-- Snippet-as-content fallback of the scout catch block:
searchResults.map((r) => (\x7b ...r, content: r.snippet \x7d)). -/
def postOfSearchResult (r : SearchResult) : Post :=
  { url := r.url, title := r.title, snippet := r.snippet, content := r.snippet }

/-- scoutNode: search, scrape, clean; only the trailing storeMessage
can throw into the catch block (search and scrape never reject, and
cleanAndFilterPosts catches internally).  phase_complete is emitted on
both paths. -/
def scoutNode (env : Env) (s : AgentState) (w : World) :
    List Ev × StateUpdate × World :=
  let searchResults := searchRedditPainPoints env s.niche
  let rawPosts0 := env.scrapePosts searchResults
  let filtered := cleanAndFilterPosts env rawPosts0
  let rawPosts1 := if 5 ≤ filtered.length then filtered else rawPosts0
  let evs := [Ev.phase_start .scout,
              Ev.search_complete searchResults.length,
              Ev.scrape_complete rawPosts0.length]
  match env.scoutStore with
  | .ok _ =>
      (evs ++ [Ev.phase_complete .scout],
       { searchResults := some searchResults, rawPosts := some rawPosts1 }, w)
  | .error m =>
      let rawPosts2 :=
        if rawPosts1.length = 0 ∧ 0 < searchResults.length then
          searchResults.map postOfSearchResult
        else rawPosts1
      (evs ++ [Ev.phase_warning .scout ("Scout degraded: " ++ m),
               Ev.phase_complete .scout],
       { searchResults := some searchResults, rawPosts := some rawPosts2,
         errors := [{ phase := .scout, message := m }] }, w)

/-- Catch block of brainNode: record the error, mark both task blocks
errored, emit phase_warning; the locals bound so far are returned. -/
def brainCatch (evs : List Ev) (painPoints : List PainPoint)
    (topProblem : Option TopProblem) (m : String) (w : World)
    (sid : String) : List Ev × StateUpdate × World :=
  let w2 := updateTaskBlock
    (updateTaskBlock w sid "extract_pain_points" "error")
    sid "rank_and_select" "error"
  (evs ++ [Ev.phase_warning .brain ("Analysis degraded: " ++ m),
           Ev.phase_complete .brain],
   { painPoints := some painPoints, topProblem := some topProblem,
     errors := [{ phase := .brain, message := m }] }, w2)

/-- brainNode: extract pain points, rank, with task-block updates,
session messages and report writes between the two LLM calls; any
rejection falls into brainCatch.  phase_complete is emitted on both
paths. -/
def brainNode (env : Env) (s : AgentState) (w : World) :
    List Ev × StateUpdate × World :=
  let sid := s.sessionId
  let w1 := updateTaskBlock w sid "extract_pain_points" "running"
  let evs0 := [Ev.phase_start .brain,
               Ev.task_update "extract_pain_points" "running"]
  match env.extract with
  | .error m => brainCatch evs0 [] none m w1 sid
  | .ok painPoints =>
    let w2 := updateTaskBlock w1 sid "extract_pain_points" "complete"
    let evs1 := evs0 ++ [Ev.task_update "extract_pain_points" "complete",
                         Ev.pain_points_extracted painPoints.length]
    match env.brainStore1 with
    | .error m => brainCatch evs1 painPoints none m w2 sid
    | .ok _ =>
      let w3 := writeReportLocal w2 sid { painPoints := some painPoints } env.now
      match env.brainWrite1 with
      | .error m => brainCatch evs1 painPoints none m w3 sid
      | .ok _ =>
        let w4 := updateTaskBlock w3 sid "rank_and_select" "running"
        let evs2 := evs1 ++ [Ev.task_update "rank_and_select" "running"]
        match env.rank with
        | .error m => brainCatch evs2 painPoints none m w4 sid
        | .ok topProblem =>
          let w5 := updateTaskBlock w4 sid "rank_and_select" "complete"
          let evs3 := evs2 ++ [Ev.task_update "rank_and_select" "complete",
                               Ev.top_problem_selected]
          match env.brainStore2 with
          | .error m => brainCatch evs3 painPoints topProblem m w5 sid
          | .ok _ =>
            let w6 := writeReportLocal w5 sid { topProblem := some topProblem } env.now
            match env.brainWrite2 with
            | .error m => brainCatch evs3 painPoints topProblem m w6 sid
            | .ok _ =>
              (evs3 ++ [Ev.phase_complete .brain],
               { painPoints := some painPoints, topProblem := some topProblem }, w6)

/-- Bright Data fallback loop of validateNode: every result with
success false and empty notes gets a browser_action event and, when the
scrape succeeds, scrapedContent set to the first 1000 characters. -/
def competitorFallback (env : Env) :
    List CompetitorResult → List Ev × List CompetitorResult
  | [] => ([], [])
  | r :: rs =>
      let tail := competitorFallback env rs
      if r.success = false ∧ r.notes = "" then
        let res := env.scrapeCompetitor r.pricingUrl
        let r2 := if res.1 then { r with scrapedContent := some (res.2.take 1000) } else r
        (Ev.browser_action :: tail.1, r2 :: tail.2)
      else (tail.1, r :: tail.2)

/-- Catch block of validateNode: record the error, mark the task block
errored, emit phase_warning, and overwrite gapAnalysis with the
low-confidence fallback verdict. -/
def valCatch (evs : List Ev) (competitorResults : List CompetitorResult)
    (m : String) (w : World) (sid : String) :
    List Ev × StateUpdate × World :=
  let w2 := updateTaskBlock w sid "verify_competitor_gaps" "error"
  (evs ++ [Ev.phase_warning .validate ("Validation degraded: " ++ m),
           Ev.phase_complete .validate],
   { competitorResults := some competitorResults,
     gapAnalysis := some (some { gap_confirmed := false, confidence := "low",
                                 gap_summary := "Automated validation failed." }),
     errors := [{ phase := .validate, message := m }] }, w2)

/-- validateNode: competitor verification, Bright Data fallback loop,
gap analysis, session message and report write; any rejection falls
into valCatch.  phase_complete is emitted on both paths. -/
def validateNode (env : Env) (s : AgentState) (w : World) :
    List Ev × StateUpdate × World :=
  let sid := s.sessionId
  let w1 := updateTaskBlock w sid "verify_competitor_gaps" "running"
  let evs1 := [Ev.phase_start .validate,
               Ev.task_update "verify_competitor_gaps" "running"]
      ++ List.replicate env.verifyEmits Ev.browser_action
  match env.verifyAll with
  | .error m => valCatch evs1 [] m w1 sid
  | .ok results0 =>
    let fb := competitorFallback env results0
    let evs2 := evs1 ++ fb.1
    match env.analyse with
    | .error m => valCatch evs2 fb.2 m w1 sid
    | .ok gap =>
      let w2 := updateTaskBlock w1 sid "verify_competitor_gaps" "complete"
      let evs3 := evs2 ++ [Ev.task_update "verify_competitor_gaps" "complete",
                           Ev.gap_analysis_complete]
      let storable := fb.2.map fun r => { r with screenshot := none }
      match env.valStore with
      | .error m => valCatch evs3 fb.2 m w2 sid
      | .ok _ =>
        let w3 := writeReportLocal w2 sid
          { competitorResults := some storable, gapAnalysis := some (some gap) } env.now
        match env.valWrite with
        | .error m => valCatch evs3 fb.2 m w3 sid
        | .ok _ =>
          (evs3 ++ [Ev.phase_complete .validate],
           { competitorResults := some fb.2, gapAnalysis := some (some gap) }, w3)

/-- Catch block of briefNode: record the error, mark the task block
errored, emit phase_warning.  Unlike the other three nodes, briefNode
has no phase_complete emission after its try/catch. -/
def briefCatch (evs : List Ev) (opportunityBrief : Option Brief)
    (m : String) (w : World) (sid : String) :
    List Ev × StateUpdate × World :=
  let w2 := updateTaskBlock w sid "generate_opportunity_brief" "error"
  (evs ++ [Ev.phase_warning .brief ("Brief generation failed: " ++ m)],
   { opportunityBrief := some opportunityBrief,
     errors := [{ phase := .brief, message := m }] }, w2)

/-- briefNode: generate the brief, flush the session, write the
authoritative report (including the current task blocks), store the
headline message, then read the report back and emit report_ready with
exactly that value.  No phase_complete is emitted by this node. -/
def briefNode (env : Env) (s : AgentState) (w : World) :
    List Ev × StateUpdate × World :=
  let sid := s.sessionId
  let w1 := updateTaskBlock w sid "generate_opportunity_brief" "running"
  let evs0 := [Ev.phase_start .brief,
               Ev.task_update "generate_opportunity_brief" "running"]
  match env.genBrief with
  | .error m => briefCatch evs0 none m w1 sid
  | .ok brief =>
    let w2 := updateTaskBlock w1 sid "generate_opportunity_brief" "complete"
    let evs1 := evs0 ++ [Ev.task_update "generate_opportunity_brief" "complete"]
    match env.flush with
    | .error m => briefCatch evs1 (some brief) m w2 sid
    | .ok _ =>
      let w3 := writeReportLocal w2 sid
        { opportunityBrief := some (some brief), status := some "complete",
          completedAt := some env.now,
          taskBlocks := some (getTaskBlocks w2 sid) } env.now
      match env.briefWrite with
      | .error m => briefCatch evs1 (some brief) m w3 sid
      | .ok _ =>
        match env.briefStore with
        | .error m => briefCatch evs1 (some brief) m w3 sid
        | .ok _ =>
          let fullReport := readReport w3 sid
          (evs1 ++ [Ev.report_ready fullReport],
           { opportunityBrief := some (some brief) }, w3)

/-- Observable actions of runGraph: an event emission or a status write
to the activeRuns registry entry. -/
inductive Act
  | emit (e : Ev)
  | setStatus (status : String)
deriving DecidableEq, Repr

/-- Projection of an action trace onto the event stream. -/
def Act.eventOf : Act → Option Ev
  | .emit e => some e
  | .setStatus _ => none

/-- Result of executing the four compiled graph nodes in order with
the LangGraph merge after each: the concatenated event stream, the five
successive states (initial plus one per merge), the final state and the
final service world. -/
structure PipelineResult where
  events : List Ev
  states : List AgentState
  final : AgentState
  world : World

/-- Sequential execution scout → brain → validate → brief of the
compiled StateGraph, merging each partial update via applyUpdate. -/
def pipelineRun (env : Env) (s0 : AgentState) (w0 : World) : PipelineResult :=
  let n1 := scoutNode env s0 w0
  let s1 := applyUpdate s0 n1.2.1
  let n2 := brainNode env s1 n1.2.2
  let s2 := applyUpdate s1 n2.2.1
  let n3 := validateNode env s2 n2.2.2
  let s3 := applyUpdate s2 n3.2.1
  let n4 := briefNode env s3 n3.2.2
  let s4 := applyUpdate s3 n4.2.1
  { events := n1.1 ++ n2.1 ++ n3.1 ++ n4.1,
    states := [s0, s1, s2, s3, s4],
    final := s4,
    world := n4.2.2 }

/-- createLearningSpace in acontextService.js: the create/learn calls
run under a try whose catch logs a warning and returns null, so the
function is total with an optional space. -/
def createLearningSpace (env : Env) : Option String :=
  env.createSpace.toOption

/-- Acontext world right after the bootstrap of runGraph: task blocks
initialised and the initial running report written (the local half of
that writeReport happens even when its remote message then rejects). -/
def bootWorld (env : Env) (sid : String) (runId : Nat) (niche : String) : World :=
  writeReportLocal (initTaskBlocks {} sid) sid
    { runId := some runId, niche := some niche, sessionId := some sid,
      spaceId := some (createLearningSpace env), status := some "running" }
    env.now

/-- Initial graph state seeded by graph.invoke in runGraph. -/
def initState (env : Env) (runId : Nat) (niche : String) (sid : String) :
    AgentState :=
  { runId := runId, niche := niche, sessionId := sid,
    spaceId := createLearningSpace env }

/-- Result of one runGraph execution: the ordered action trace
(emissions and registry status writes), the final registry status, the
final graph state when the graph ran, and the service world. -/
structure RunResult where
  acts : List Act
  status : String
  finalState : Option AgentState
  world : World

/-- Event stream of a run: the emissions of its action trace. -/
def RunResult.events (r : RunResult) : List Ev :=
  r.acts.filterMap Act.eventOf

/-- runGraph: emit run_start, bootstrap the Acontext context (session,
optional learning space, task blocks, initial report write), invoke the
compiled graph, set the final status and emit done; the catch path of a
rejection before or during bootstrap emits error then done and sets
status error.  The finally clause only closes the Bright Data client
(closeBrightData with a swallowed rejection) and is silent. -/
def runGraph (env : Env) (runId : Nat) (niche : String) : RunResult :=
  match env.createSession with
  | .error m =>
      { acts := [.emit .run_start, .emit (.error m), .emit (.done none none),
                 .setStatus "error"],
        status := "error", finalState := none, world := {} }
  | .ok sid =>
    let space := createLearningSpace env
    let acts0 : List Act := [.emit .run_start, .emit (.session_created sid space)]
    let w2 := bootWorld env sid runId niche
    match env.bootWrite with
    | .error m =>
        { acts := acts0 ++ [.emit (.error m), .emit (.done none none),
                            .setStatus "error"],
          status := "error", finalState := none, world := w2 }
    | .ok _ =>
      let p := pipelineRun env (initState env runId niche sid) w2
      let status := if p.final.errors.length ≠ 0 then "complete_with_warnings"
                    else "complete"
      { acts := acts0 ++ p.events.map Act.emit ++
          [.setStatus status,
           .emit (.done (some p.final.errors.length)
                        (some (env.nowMs - env.startedAtMs)))],
        status := status, finalState := some p.final, world := p.world }

/-- RunRecord held in the activeRuns registry (the emitter handle is
identified with the run id of the key and elided). -/
structure RunRecord where
  status : String
  niche : String
  startedAtMs : Int
deriving DecidableEq, Repr

/-- Process state of the registry: the activeRuns map plus the state of
the fresh-identifier supply.  uuidv4() is modelled as an injective
fresh-token supply, the token being the number of draws made so far. -/
structure Server where
  nextId : Nat := 0
  runs : List (Nat × RunRecord) := []
deriving Repr

/-- startRun (synchronous part): draw a fresh run identifier, register
the RunRecord in status running, return the identifier immediately.
The fire-and-forget runGraph invocation is the asynchronous part. -/
def startRun (srv : Server) (niche : String) (nowMs : Int) : Nat × Server :=
  let runId := srv.nextId
  (runId,
   { nextId := srv.nextId + 1,
     runs := mapSet srv.runs runId
       { status := "running", niche := niche, startedAtMs := nowMs } })

/-- getActiveRun: activeRuns.get(runId). -/
def getActiveRun (srv : Server) (runId : Nat) : Option RunRecord :=
  mapGet srv.runs runId

/-- Response of the POST /api/agent/start handler (the 400 body is the
validation error message, the 202 body carries the run id). -/
structure StartResponse where
  statusCode : Nat
  runId : Option Nat
deriving DecidableEq, Repr

/-- POST /api/agent/start in routes/agent.js: a body whose niche is
absent or not a string (modelled as none) or whose trimmed length is
under 3 is rejected with 400 and no registration; otherwise startRun
runs on the trimmed niche and 202 carries the fresh run id. -/
def postStart (body : Option String) (srv : Server) (nowMs : Int) :
    StartResponse × Server :=
  match body with
  | none => ({ statusCode := 400, runId := none }, srv)
  | some niche =>
      if (jsTrim niche).length < 3 then ({ statusCode := 400, runId := none }, srv)
      else
        let r := startRun srv (jsTrim niche) nowMs
        ({ statusCode := 202, runId := some r.1 }, r.2)

/-- Event classifier: terminal done events. -/
def isDone : Ev → Bool
  | .done _ _ => true
  | _ => false

/-- Event classifier: phase_start events of a given phase. -/
def isPhaseStart (ph : Phase) : Ev → Bool
  | .phase_start q => decide (q = ph)
  | _ => false

/-- Event classifier: phase_complete events of a given phase. -/
def isPhaseComplete (ph : Phase) : Ev → Bool
  | .phase_complete q => decide (q = ph)
  | _ => false

/-- Event classifier: phase_warning events of a given phase. -/
def isPhaseWarning (ph : Phase) : Ev → Bool
  | .phase_warning q _ => decide (q = ph)
  | _ => false

/-- Event classifier: report_ready events. -/
def isReportReady : Ev → Bool
  | .report_ready _ => true
  | _ => false

/-- Registry well-formedness: every registered run identifier was drawn
from the fresh-token supply before its current position. -/
def ServerWF (srv : Server) : Prop :=
  ∀ p ∈ srv.runs, p.1 < srv.nextId

section Lemmas

/-- The LangGraph errors reducer is concatenation: merging a partial
update appends its errors after the accumulated ones. -/
theorem applyUpdate_errors (s : AgentState) (u : StateUpdate) :
    (applyUpdate s u).errors = s.errors ++ u.errors := rfl

/-- Merging a partial update never changes the space identifier (no
node returns a spaceId field). -/
theorem applyUpdate_spaceId (s : AgentState) (u : StateUpdate) :
    (applyUpdate s u).spaceId = s.spaceId := rfl

/-- Projecting emissions out of a pure emission block. -/
theorem filterMap_eventOf_map_emit (evs : List Ev) :
    (evs.map Act.emit).filterMap Act.eventOf = evs := by
  induction evs with
  | nil => rfl
  | cons e es ih => simp [Act.eventOf, ih]

/-- Composition form of the previous lemma, as produced by simp. -/
theorem filterMap_eventOf_comp_emit (evs : List Ev) :
    evs.filterMap (Act.eventOf ∘ Act.emit) = evs := by
  induction evs with
  | nil => rfl
  | cons e es ih => simp [Act.eventOf, ih]

/-- Replicated browser_action events contain no event satisfying a
predicate that is false on browser_action. -/
theorem countP_replicate_zero (n : Nat) (pred : Ev → Bool)
    (h : pred Ev.browser_action = false) :
    (List.replicate n Ev.browser_action).countP pred = 0 := by
  induction n with
  | zero => rfl
  | succ k ih => simp [List.replicate_succ, List.countP_cons, h, ih]

/-- Every event the Bright Data fallback loop emits is browser_action. -/
theorem competitorFallback_events_browser (env : Env)
    (rs : List CompetitorResult) :
    ∀ e ∈ (competitorFallback env rs).1, e = Ev.browser_action := by
  induction rs with
  | nil => intro e he; simp [competitorFallback] at he
  | cons r rest ih =>
      intro e he
      simp only [competitorFallback] at he
      by_cases hc : r.success = false ∧ r.notes = ""
      · simp [hc] at he
        rcases he with he | he
        · exact he
        · exact ih e he
      · simp [hc] at he
        exact ih e he

/-- Fallback-loop events contain no event satisfying a predicate that
is false on browser_action. -/
theorem countP_competitorFallback_zero (env : Env)
    (rs : List CompetitorResult) (pred : Ev → Bool)
    (h : pred Ev.browser_action = false) :
    ((competitorFallback env rs).1).countP pred = 0 := by
  refine List.countP_eq_zero.mpr ?_
  intro e he
  rw [competitorFallback_events_browser env rs e he, h]
  exact Bool.false_ne_true

/-- scoutNode never emits a done event. -/
theorem scoutNode_countP_done (env : Env) (s : AgentState) (w : World) :
    ((scoutNode env s w).1).countP isDone = 0 := by
  cases h : env.scoutStore <;>
    simp [scoutNode, h, isDone, List.countP_cons, List.countP_append]

/-- brainNode never emits a done event. -/
theorem brainNode_countP_done (env : Env) (s : AgentState) (w : World) :
    ((brainNode env s w).1).countP isDone = 0 := by
  cases h1 : env.extract <;> cases h2 : env.brainStore1 <;>
    cases h3 : env.brainWrite1 <;> cases h4 : env.rank <;>
    cases h5 : env.brainStore2 <;> cases h6 : env.brainWrite2 <;>
    simp [brainNode, brainCatch, h1, h2, h3, h4, h5, h6, isDone,
      List.countP_cons, List.countP_append]

/-- validateNode never emits a done event. -/
theorem validateNode_countP_done (env : Env) (s : AgentState) (w : World) :
    ((validateNode env s w).1).countP isDone = 0 := by
  cases h1 : env.verifyAll <;> cases h2 : env.analyse <;>
    cases h3 : env.valStore <;> cases h4 : env.valWrite <;>
    simp [validateNode, valCatch, h1, h2, h3, h4, isDone,
      List.countP_cons, List.countP_append,
      countP_replicate_zero, countP_competitorFallback_zero]

/-- briefNode never emits a done event. -/
theorem briefNode_countP_done (env : Env) (s : AgentState) (w : World) :
    ((briefNode env s w).1).countP isDone = 0 := by
  cases h1 : env.genBrief <;> cases h2 : env.flush <;>
    cases h3 : env.briefWrite <;> cases h4 : env.briefStore <;>
    simp [briefNode, briefCatch, h1, h2, h3, h4, isDone,
      List.countP_cons, List.countP_append]

/-- scoutNode emits exactly one phase_start, for the scout phase. -/
theorem scoutNode_countP_start (env : Env) (s : AgentState) (w : World)
    (ph : Phase) :
    ((scoutNode env s w).1).countP (isPhaseStart ph) =
      if ph = .scout then 1 else 0 := by
  cases h : env.scoutStore <;> cases ph <;>
    simp [scoutNode, h, isPhaseStart, List.countP_cons, List.countP_append]

/-- scoutNode emits exactly one phase_complete, for the scout phase,
on both its paths. -/
theorem scoutNode_countP_complete (env : Env) (s : AgentState) (w : World)
    (ph : Phase) :
    ((scoutNode env s w).1).countP (isPhaseComplete ph) =
      if ph = .scout then 1 else 0 := by
  cases h : env.scoutStore <;> cases ph <;>
    simp [scoutNode, h, isPhaseComplete, List.countP_cons, List.countP_append]

/-- brainNode emits exactly one phase_start, for the brain phase. -/
theorem brainNode_countP_start (env : Env) (s : AgentState) (w : World)
    (ph : Phase) :
    ((brainNode env s w).1).countP (isPhaseStart ph) =
      if ph = .brain then 1 else 0 := by
  cases h1 : env.extract <;> cases h2 : env.brainStore1 <;>
    cases h3 : env.brainWrite1 <;> cases h4 : env.rank <;>
    cases h5 : env.brainStore2 <;> cases h6 : env.brainWrite2 <;> cases ph <;>
    simp [brainNode, brainCatch, h1, h2, h3, h4, h5, h6, isPhaseStart,
      List.countP_cons, List.countP_append]

/-- brainNode emits exactly one phase_complete, for the brain phase,
on every path. -/
theorem brainNode_countP_complete (env : Env) (s : AgentState) (w : World)
    (ph : Phase) :
    ((brainNode env s w).1).countP (isPhaseComplete ph) =
      if ph = .brain then 1 else 0 := by
  cases h1 : env.extract <;> cases h2 : env.brainStore1 <;>
    cases h3 : env.brainWrite1 <;> cases h4 : env.rank <;>
    cases h5 : env.brainStore2 <;> cases h6 : env.brainWrite2 <;> cases ph <;>
    simp [brainNode, brainCatch, h1, h2, h3, h4, h5, h6, isPhaseComplete,
      List.countP_cons, List.countP_append]

/-- validateNode emits exactly one phase_start, for the validate phase. -/
theorem validateNode_countP_start (env : Env) (s : AgentState) (w : World)
    (ph : Phase) :
    ((validateNode env s w).1).countP (isPhaseStart ph) =
      if ph = .validate then 1 else 0 := by
  cases h1 : env.verifyAll <;> cases h2 : env.analyse <;>
    cases h3 : env.valStore <;> cases h4 : env.valWrite <;> cases ph <;>
    simp [validateNode, valCatch, h1, h2, h3, h4, isPhaseStart,
      List.countP_cons, List.countP_append,
      countP_replicate_zero, countP_competitorFallback_zero]

/-- validateNode emits exactly one phase_complete, for the validate
phase, on every path. -/
theorem validateNode_countP_complete (env : Env) (s : AgentState) (w : World)
    (ph : Phase) :
    ((validateNode env s w).1).countP (isPhaseComplete ph) =
      if ph = .validate then 1 else 0 := by
  cases h1 : env.verifyAll <;> cases h2 : env.analyse <;>
    cases h3 : env.valStore <;> cases h4 : env.valWrite <;> cases ph <;>
    simp [validateNode, valCatch, h1, h2, h3, h4, isPhaseComplete,
      List.countP_cons, List.countP_append,
      countP_replicate_zero, countP_competitorFallback_zero]

/-- briefNode emits exactly one phase_start, for the brief phase. -/
theorem briefNode_countP_start (env : Env) (s : AgentState) (w : World)
    (ph : Phase) :
    ((briefNode env s w).1).countP (isPhaseStart ph) =
      if ph = .brief then 1 else 0 := by
  cases h1 : env.genBrief <;> cases h2 : env.flush <;>
    cases h3 : env.briefWrite <;> cases h4 : env.briefStore <;> cases ph <;>
    simp [briefNode, briefCatch, h1, h2, h3, h4, isPhaseStart,
      List.countP_cons, List.countP_append]

/-- briefNode emits no phase_complete event at all, for any phase, on
any path: its try/catch is not followed by a phase_complete emission. -/
theorem briefNode_countP_complete (env : Env) (s : AgentState) (w : World)
    (ph : Phase) :
    ((briefNode env s w).1).countP (isPhaseComplete ph) = 0 := by
  cases h1 : env.genBrief <;> cases h2 : env.flush <;>
    cases h3 : env.briefWrite <;> cases h4 : env.briefStore <;>
    simp [briefNode, briefCatch, h1, h2, h3, h4, isPhaseComplete,
      List.countP_cons, List.countP_append]

/-- scoutNode emits no brain phase_warning. -/
theorem scoutNode_countP_warn_brain (env : Env) (s : AgentState) (w : World) :
    ((scoutNode env s w).1).countP (isPhaseWarning .brain) = 0 := by
  cases h : env.scoutStore <;>
    simp [scoutNode, h, isPhaseWarning, List.countP_cons, List.countP_append]

/-- brainNode emits exactly one brain phase_warning when the first
Reasoning Provider call rejects. -/
theorem brainNode_countP_warn_brain (env : Env) (s : AgentState) (w : World)
    (m : String) (h : env.extract = .error m) :
    ((brainNode env s w).1).countP (isPhaseWarning .brain) = 1 := by
  simp [brainNode, brainCatch, h, isPhaseWarning, List.countP_cons,
    List.countP_append]

/-- validateNode emits no brain phase_warning. -/
theorem validateNode_countP_warn_brain (env : Env) (s : AgentState)
    (w : World) :
    ((validateNode env s w).1).countP (isPhaseWarning .brain) = 0 := by
  cases h1 : env.verifyAll <;> cases h2 : env.analyse <;>
    cases h3 : env.valStore <;> cases h4 : env.valWrite <;>
    simp [validateNode, valCatch, h1, h2, h3, h4, isPhaseWarning,
      List.countP_cons, List.countP_append,
      countP_replicate_zero, countP_competitorFallback_zero]

/-- briefNode emits no brain phase_warning. -/
theorem briefNode_countP_warn_brain (env : Env) (s : AgentState) (w : World) :
    ((briefNode env s w).1).countP (isPhaseWarning .brain) = 0 := by
  cases h1 : env.genBrief <;> cases h2 : env.flush <;>
    cases h3 : env.briefWrite <;> cases h4 : env.briefStore <;>
    simp [briefNode, briefCatch, h1, h2, h3, h4, isPhaseWarning,
      List.countP_cons, List.countP_append]

/-- scoutNode emits no report_ready event. -/
theorem scoutNode_filter_report (env : Env) (s : AgentState) (w : World) :
    ((scoutNode env s w).1).filter isReportReady = [] := by
  cases h : env.scoutStore <;>
    simp [scoutNode, h, isReportReady, List.filter_cons, List.filter_append]

/-- brainNode emits no report_ready event. -/
theorem brainNode_filter_report (env : Env) (s : AgentState) (w : World) :
    ((brainNode env s w).1).filter isReportReady = [] := by
  cases h1 : env.extract <;> cases h2 : env.brainStore1 <;>
    cases h3 : env.brainWrite1 <;> cases h4 : env.rank <;>
    cases h5 : env.brainStore2 <;> cases h6 : env.brainWrite2 <;>
    simp [brainNode, brainCatch, h1, h2, h3, h4, h5, h6, isReportReady,
      List.filter_cons, List.filter_append]

/-- Replicated browser_action events are all dropped by a filter whose
predicate is false on browser_action. -/
theorem filter_replicate_nil (n : Nat) (pred : Ev → Bool)
    (h : pred Ev.browser_action = false) :
    (List.replicate n Ev.browser_action).filter pred = [] := by
  refine List.filter_eq_nil_iff.mpr ?_
  intro e he
  rw [List.eq_of_mem_replicate he, h]
  exact Bool.false_ne_true

/-- Fallback-loop events are all dropped by a filter whose predicate is
false on browser_action. -/
theorem filter_competitorFallback_nil (env : Env)
    (rs : List CompetitorResult) (pred : Ev → Bool)
    (h : pred Ev.browser_action = false) :
    ((competitorFallback env rs).1).filter pred = [] := by
  refine List.filter_eq_nil_iff.mpr ?_
  intro e he
  rw [competitorFallback_events_browser env rs e he, h]
  exact Bool.false_ne_true

/-- validateNode emits no report_ready event. -/
theorem validateNode_filter_report (env : Env) (s : AgentState) (w : World) :
    ((validateNode env s w).1).filter isReportReady = [] := by
  cases h1 : env.verifyAll <;> cases h2 : env.analyse <;>
    cases h3 : env.valStore <;> cases h4 : env.valWrite <;>
    simp [validateNode, valCatch, h1, h2, h3, h4, isReportReady,
      List.filter_cons, List.filter_append,
      filter_replicate_nil, filter_competitorFallback_nil]

/-- briefNode on its full-success path emits exactly one report_ready,
whose payload is the report read back from the store it just wrote. -/
theorem briefNode_filter_report_ok (env : Env) (s : AgentState) (w : World)
    (b : Brief) (h1 : env.genBrief = .ok b) (h2 : env.flush = .ok ())
    (h3 : env.briefWrite = .ok ()) (h4 : env.briefStore = .ok ()) :
    ((briefNode env s w).1).filter isReportReady =
      [Ev.report_ready (readReport (briefNode env s w).2.2 s.sessionId)] := by
  simp [briefNode, h1, h2, h3, h4, isReportReady,
    List.filter_cons, List.filter_append]

/-- Merging a partial update never changes the session identifier. -/
theorem applyUpdate_sessionId (s : AgentState) (u : StateUpdate) :
    (applyUpdate s u).sessionId = s.sessionId := rfl

/-- Event count over a full pipeline execution is the sum of the four
node counts whenever each node count is branch-stable. -/
theorem pipelineRun_countP (env : Env) (s0 : AgentState) (w0 : World)
    (pred : Ev → Bool) (a b c d : Nat)
    (hA : ∀ s w, ((scoutNode env s w).1).countP pred = a)
    (hB : ∀ s w, ((brainNode env s w).1).countP pred = b)
    (hC : ∀ s w, ((validateNode env s w).1).countP pred = c)
    (hD : ∀ s w, ((briefNode env s w).1).countP pred = d) :
    ((pipelineRun env s0 w0).events).countP pred = a + b + c + d := by
  simp [pipelineRun, List.countP_append, hA, hB, hC, hD]
  omega

/-- Errors accumulated by a full pipeline execution contain whatever
the brain node contributed. -/
theorem pipelineRun_mem_errors_brain (env : Env) (s0 : AgentState)
    (w0 : World) (x : PhaseError)
    (hB : ∀ s w, x ∈ (brainNode env s w).2.1.errors) :
    x ∈ (pipelineRun env s0 w0).final.errors := by
  simp only [pipelineRun, applyUpdate_errors, List.mem_append]
  left; left; right
  exact hB _ _

/-- The final pipeline state keeps the initial space identifier: no
node returns a spaceId field. -/
theorem pipelineRun_spaceId (env : Env) (s0 : AgentState) (w0 : World) :
    (pipelineRun env s0 w0).final.spaceId = s0.spaceId := by
  simp [pipelineRun, applyUpdate_spaceId]

/-- The final pipeline state keeps the initial session identifier. -/
theorem pipelineRun_sessionId (env : Env) (s0 : AgentState) (w0 : World) :
    (pipelineRun env s0 w0).final.sessionId = s0.sessionId := by
  simp [pipelineRun, applyUpdate_sessionId]

/-- runGraph on the path where the Acontext session bootstrap rejects:
run_start, error, done, and the registry set to error. -/
theorem runGraph_sessionFail (env : Env) (rid : Nat) (niche : String)
    (m : String) (h : env.createSession = .error m) :
    runGraph env rid niche =
      { acts := [.emit .run_start, .emit (.error m), .emit (.done none none),
                 .setStatus "error"],
        status := "error", finalState := none, world := {} } := by
  simp [runGraph, h]

/-- runGraph on the path where the bootstrap report write rejects. -/
theorem runGraph_bootFail (env : Env) (rid : Nat) (niche : String)
    (sid m : String) (h1 : env.createSession = .ok sid)
    (h2 : env.bootWrite = .error m) :
    runGraph env rid niche =
      { acts := [.emit .run_start,
                 .emit (.session_created sid (createLearningSpace env)),
                 .emit (.error m), .emit (.done none none),
                 .setStatus "error"],
        status := "error", finalState := none,
        world := bootWorld env sid rid niche } := by
  simp [runGraph, h1, h2]

/-- runGraph on the successful-bootstrap path, fully decomposed. -/
theorem runGraph_ok (env : Env) (rid : Nat) (niche : String) (sid : String)
    (h1 : env.createSession = .ok sid) (h2 : env.bootWrite = .ok ()) :
    runGraph env rid niche =
      { acts := [Act.emit .run_start,
                 Act.emit (.session_created sid (createLearningSpace env))] ++
          ((pipelineRun env (initState env rid niche sid)
              (bootWorld env sid rid niche)).events).map Act.emit ++
          [Act.setStatus (if (pipelineRun env (initState env rid niche sid)
                (bootWorld env sid rid niche)).final.errors.length ≠ 0
              then "complete_with_warnings" else "complete"),
           Act.emit (.done
              (some (pipelineRun env (initState env rid niche sid)
                 (bootWorld env sid rid niche)).final.errors.length)
              (some (env.nowMs - env.startedAtMs)))],
        status := if (pipelineRun env (initState env rid niche sid)
              (bootWorld env sid rid niche)).final.errors.length ≠ 0
            then "complete_with_warnings" else "complete",
        finalState := some (pipelineRun env (initState env rid niche sid)
            (bootWorld env sid rid niche)).final,
        world := (pipelineRun env (initState env rid niche sid)
            (bootWorld env sid rid niche)).world } := by
  simp [runGraph, h1, h2]

/-- Event stream of a successful-bootstrap run: run_start and
session_created, the pipeline events, then the single done event. -/
theorem runGraph_events_ok (env : Env) (rid : Nat) (niche : String)
    (sid : String) (h1 : env.createSession = .ok sid)
    (h2 : env.bootWrite = .ok ()) :
    (runGraph env rid niche).events =
      [Ev.run_start, Ev.session_created sid (createLearningSpace env)] ++
      (pipelineRun env (initState env rid niche sid)
          (bootWorld env sid rid niche)).events ++
      [Ev.done (some (pipelineRun env (initState env rid niche sid)
            (bootWorld env sid rid niche)).final.errors.length)
          (some (env.nowMs - env.startedAtMs))] := by
  rw [runGraph_ok env rid niche sid h1 h2]
  simp [RunResult.events, List.filterMap_append, filterMap_eventOf_map_emit,
    filterMap_eventOf_comp_emit, Act.eventOf]

/-- mapSet produces either the new binding or an old one. -/
theorem mem_mapSet {κ α : Type} [DecidableEq κ] (m : List (κ × α))
    (k : κ) (v : α) (p : κ × α) :
    p ∈ mapSet m k v → p = (k, v) ∨ p ∈ m := by
  induction m with
  | nil => intro h; simpa [mapSet] using h
  | cons q rest ih =>
      intro h
      obtain ⟨q1, q2⟩ := q
      by_cases hk : q1 = k
      · simp only [mapSet, if_pos hk, List.mem_cons] at h
        rcases h with h | h
        · exact Or.inl h
        · exact Or.inr (List.mem_cons_of_mem _ h)
      · simp only [mapSet, if_neg hk, List.mem_cons] at h
        rcases h with h | h
        · exact Or.inr (h ▸ List.mem_cons_self _ _)
        · rcases ih h with h2 | h2
          · exact Or.inl h2
          · exact Or.inr (List.mem_cons_of_mem _ h2)

/-- mapGet of a freshly set key returns the set value. -/
theorem mapGet_mapSet_self {κ α : Type} [DecidableEq κ] (m : List (κ × α))
    (k : κ) (v : α) : mapGet (mapSet m k v) k = some v := by
  induction m with
  | nil => simp [mapSet, mapGet]
  | cons q rest ih =>
      by_cases hk : q.1 = k
      · simp [mapSet, mapGet, hk]
      · simp [mapSet, mapGet, hk, ih]

/-- mapGet of a bound key yields one of the bindings. -/
theorem mapGet_mem {κ α : Type} [DecidableEq κ] (m : List (κ × α))
    (k : κ) (v : α) : mapGet m k = some v → (k, v) ∈ m := by
  induction m with
  | nil => intro h; simp [mapGet] at h
  | cons q rest ih =>
      intro h
      by_cases hk : q.1 = k
      · simp only [mapGet] at h
        rw [if_pos hk] at h
        have : q = (k, v) := by
          obtain ⟨q1, q2⟩ := q
          simp_all
        exact this ▸ List.mem_cons_self _ _
      · simp only [mapGet] at h
        rw [if_neg hk] at h
        exact List.mem_cons_of_mem _ (ih h)

/-- In a well-formed registry the next fresh identifier is unbound. -/
theorem getActiveRun_fresh (srv : Server) (h : ServerWF srv) :
    getActiveRun srv srv.nextId = none := by
  cases hg : getActiveRun srv srv.nextId with
  | none => rfl
  | some v =>
      have hmem := mapGet_mem srv.runs srv.nextId v hg
      have := h _ hmem
      omega

/-- startRun preserves registry well-formedness. -/
theorem startRun_WF (srv : Server) (niche : String) (nowMs : Int)
    (h : ServerWF srv) : ServerWF (startRun srv niche nowMs).2 := by
  intro p hp
  simp only [startRun] at hp ⊢
  rcases mem_mapSet _ _ _ _ hp with h2 | h2
  · rw [h2]; omega
  · have := h _ h2; omega

/-- Seen-set accumulated by the uniqueByUrl filter over a list. -/
def seenAfter : List SearchResult → List String → List String
  | [], seen => seen
  | r :: rs, seen =>
      if r.url = "" ∨ r.url ∈ seen then seenAfter rs seen
      else seenAfter rs (r.url :: seen)

/-- uniqueByUrl distributes over append, tracking the seen set. -/
theorem uniqueByUrl_append (xs : List SearchResult) :
    ∀ (ys : List SearchResult) (seen : List String),
      uniqueByUrl (xs ++ ys) seen =
        uniqueByUrl xs seen ++ uniqueByUrl ys (seenAfter xs seen) := by
  induction xs with
  | nil => intro ys seen; simp [uniqueByUrl, seenAfter]
  | cons r rs ih =>
      intro ys seen
      by_cases hd : r.url = "" ∨ r.url ∈ seen
      · simp only [List.cons_append, uniqueByUrl, seenAfter, if_pos hd]
        exact ih ys seen
      · simp only [List.cons_append, uniqueByUrl, seenAfter, if_neg hd,
          List.append_eq]
        rw [ih ys (r.url :: seen)]

/-- The starting seen set survives into seenAfter. -/
theorem subset_seenAfter (xs : List SearchResult) :
    ∀ seen : List String, seen ⊆ seenAfter xs seen := by
  induction xs with
  | nil => intro seen; simp [seenAfter]
  | cons r rs ih =>
      intro seen
      by_cases hd : r.url = "" ∨ r.url ∈ seen
      · simp only [seenAfter, if_pos hd]; exact ih seen
      · simp only [seenAfter, if_neg hd]
        exact List.Subset.trans (fun x hx => List.mem_cons_of_mem _ hx)
          (ih (r.url :: seen))

/-- Every nonempty url of the input ends up in the seen set. -/
theorem mem_seenAfter (xs : List SearchResult) :
    ∀ (seen : List String) (r : SearchResult), r ∈ xs → r.url ≠ "" →
      r.url ∈ seenAfter xs seen := by
  induction xs with
  | nil => intro seen r hr; cases hr
  | cons a rs ih =>
      intro seen r hr hne
      rcases List.mem_cons.mp hr with h | h
      · subst h
        by_cases hd : r.url = "" ∨ r.url ∈ seen
        · simp only [seenAfter, if_pos hd]
          rcases hd with hd | hd
          · exact absurd hd hne
          · exact subset_seenAfter rs seen hd
        · simp only [seenAfter, if_neg hd]
          exact subset_seenAfter rs (r.url :: seen) (List.mem_cons_self _ _)
      · by_cases hd : a.url = "" ∨ a.url ∈ seen
        · simp only [seenAfter, if_pos hd]
          exact ih seen r h hne
        · simp only [seenAfter, if_neg hd]
          exact ih (a.url :: seen) r h hne

/-- uniqueByUrl of a list all of whose urls are empty or seen is empty. -/
theorem uniqueByUrl_eq_nil (xs : List SearchResult) :
    ∀ seen : List String, (∀ r ∈ xs, r.url = "" ∨ r.url ∈ seen) →
      uniqueByUrl xs seen = [] := by
  induction xs with
  | nil => intro seen _; rfl
  | cons r rs ih =>
      intro seen hall
      have hd : r.url = "" ∨ r.url ∈ seen := hall r (List.mem_cons_self _ _)
      simp only [uniqueByUrl, if_pos hd]
      exact ih seen fun q hq => hall q (List.mem_cons_of_mem _ hq)

/-- Re-merging the same batch through the URL dedup filter does not
grow the collection. -/
theorem uniqueByUrl_self_append (xs : List SearchResult) :
    uniqueByUrl (xs ++ xs) [] = uniqueByUrl xs [] := by
  rw [uniqueByUrl_append]
  have h0 : uniqueByUrl xs (seenAfter xs []) = [] := by
    refine uniqueByUrl_eq_nil xs _ fun r hr => ?_
    by_cases he : r.url = ""
    · exact Or.inl he
    · exact Or.inr (mem_seenAfter xs [] r hr he)
  simp [h0]

/-- Occurrence count of a fixed nonempty url in the dedup output: one
when the url occurs in the input and is not already seen, else zero. -/
theorem uniqueByUrl_countP (u : String) (hu : u ≠ "") :
    ∀ (xs : List SearchResult) (seen : List String),
      (uniqueByUrl xs seen).countP (fun r => decide (r.url = u)) =
        if u ∈ seen then 0 else if ∃ r ∈ xs, r.url = u then 1 else 0 := by
  intro xs
  induction xs with
  | nil => intro seen; by_cases hs : u ∈ seen <;> simp [uniqueByUrl, hs]
  | cons r rs ih =>
      intro seen
      by_cases hd : r.url = "" ∨ r.url ∈ seen
      · simp only [uniqueByUrl, if_pos hd]
        rw [ih seen]
        by_cases hs : u ∈ seen
        · simp [hs]
        · have hne : r.url ≠ u := by
            intro he
            rcases hd with hd | hd
            · exact hu (he ▸ hd)
            · exact hs (he ▸ hd)
          simp only [if_neg hs]
          have : (∃ q ∈ r :: rs, q.url = u) ↔ ∃ q ∈ rs, q.url = u := by
            constructor
            · rintro ⟨q, hq, hqu⟩
              rcases List.mem_cons.mp hq with h | h
              · exact absurd (h ▸ hqu) hne
              · exact ⟨q, h, hqu⟩
            · rintro ⟨q, hq, hqu⟩
              exact ⟨q, List.mem_cons_of_mem _ hq, hqu⟩
          rw [if_congr this rfl rfl]
      · push_neg at hd
        simp only [uniqueByUrl, if_neg (not_or.mpr ⟨hd.1, hd.2⟩)]
        rw [List.countP_cons, ih (r.url :: seen)]
        by_cases heq : r.url = u
        · subst heq
          simp [hd.2]
        · have hmem : u ∈ r.url :: seen ↔ u ∈ seen := by
            simp [List.mem_cons]
            intro he
            exact absurd he.symm heq
          by_cases hs : u ∈ seen
          · simp [hs, hmem, heq]
          · have hs2 : u ∉ r.url :: seen := fun hc => hs (hmem.mp hc)
            simp only [if_neg hs2, if_neg hs, heq, decide_eq_true_eq]
            have : (∃ q ∈ r :: rs, q.url = u) ↔ ∃ q ∈ rs, q.url = u := by
              constructor
              · rintro ⟨q, hq, hqu⟩
                rcases List.mem_cons.mp hq with h | h
                · exact absurd (h ▸ hqu) heq
                · exact ⟨q, h, hqu⟩
              · rintro ⟨q, hq, hqu⟩
                exact ⟨q, List.mem_cons_of_mem _ hq, hqu⟩
            rw [if_congr this rfl rfl]
            simp

end Lemmas

section Claims

/-- C1: For every run — whatever the outcome of every external call —
the event stream carries exactly one terminal done event; on the fatal
path the stream is run_start, error, then the single done. -/
theorem run_emits_done_exactly_once :
    (∀ (env : Env) (rid : Nat) (niche : String),
      ((runGraph env rid niche).events).countP isDone = 1) ∧
    (∀ (env : Env) (rid : Nat) (niche m : String),
      env.createSession = .error m →
      (runGraph env rid niche).events =
        [Ev.run_start, Ev.error m, Ev.done none none]) := by
  constructor
  · intro env rid niche
    cases hs : env.createSession with
    | error m =>
        rw [runGraph_sessionFail env rid niche m hs]
        simp [RunResult.events, Act.eventOf, isDone, List.countP_cons]
    | ok sid =>
        cases hb : env.bootWrite with
        | error m =>
            rw [runGraph_bootFail env rid niche sid m hs hb]
            simp [RunResult.events, Act.eventOf, isDone, List.countP_cons]
        | ok u =>
            cases u
            rw [runGraph_events_ok env rid niche sid hs hb]
            rw [List.countP_append, List.countP_append]
            rw [pipelineRun_countP env _ _ isDone 0 0 0 0
              (scoutNode_countP_done env) (brainNode_countP_done env)
              (validateNode_countP_done env) (briefNode_countP_done env)]
            simp [isDone, List.countP_cons]
  · intro env rid niche m h
    rw [runGraph_sessionFail env rid niche m h]
    simp [RunResult.events, Act.eventOf]

/-- C1 witness: a concrete fatal-bootstrap run has exactly one done,
preceded by the error event. -/
theorem run_emits_done_exactly_once_witness :
    ({ createSession := .error "ACONTEXT_API_KEY is not set in .env" } :
        Env).createSession = .error "ACONTEXT_API_KEY is not set in .env" ∧
    ((runGraph { createSession := .error "ACONTEXT_API_KEY is not set in .env" }
        7 "indie podcasters").events).countP isDone = 1 ∧
    (runGraph { createSession := .error "ACONTEXT_API_KEY is not set in .env" }
        7 "indie podcasters").events =
      [Ev.run_start, Ev.error "ACONTEXT_API_KEY is not set in .env",
       Ev.done none none] :=
  ⟨rfl,
   run_emits_done_exactly_once.1 _ 7 "indie podcasters",
   run_emits_done_exactly_once.2 _ 7 "indie podcasters" _ rfl⟩

/-- C2: The errors reducer concatenates (old entries preserved in
order, never replaced), so the errors-list length is monotonically
non-decreasing across the four phase transitions of any run. -/
theorem errors_merge_concat_monotone :
    (∀ (s : AgentState) (u : StateUpdate),
      (applyUpdate s u).errors = s.errors ++ u.errors ∧
      s.errors.length ≤ (applyUpdate s u).errors.length) ∧
    (∀ (env : Env) (s0 : AgentState) (w0 : World),
      ((pipelineRun env s0 w0).states).Chain'
        (fun a b => a.errors.length ≤ b.errors.length)) := by
  constructor
  · intro s u
    refine ⟨applyUpdate_errors s u, ?_⟩
    rw [applyUpdate_errors, List.length_append]
    omega
  · intro env s0 w0
    simp [pipelineRun, List.chain'_cons, applyUpdate_errors,
      List.length_append]

/-- C3: After the final phase the terminal status is computed solely
from the accumulated errors — complete exactly when they are empty,
complete_with_warnings otherwise — and the status write is followed by
the single done event carrying the elapsed duration. -/
theorem final_status_iff_errors_empty (env : Env) (rid : Nat)
    (niche sid : String) (h1 : env.createSession = .ok sid)
    (h2 : env.bootWrite = .ok ()) :
    ∃ (pre : List Act) (fs : AgentState),
      (runGraph env rid niche).finalState = some fs ∧
      ((runGraph env rid niche).status = "complete" ↔ fs.errors = []) ∧
      ((runGraph env rid niche).status = "complete_with_warnings" ↔
          fs.errors ≠ []) ∧
      (runGraph env rid niche).acts =
        pre ++ [Act.setStatus (runGraph env rid niche).status,
                Act.emit (Ev.done (some fs.errors.length)
                  (some (env.nowMs - env.startedAtMs)))] := by
  rw [runGraph_ok env rid niche sid h1 h2]
  refine ⟨[Act.emit .run_start,
           Act.emit (.session_created sid (createLearningSpace env))] ++
          ((pipelineRun env (initState env rid niche sid)
              (bootWorld env sid rid niche)).events).map Act.emit,
         (pipelineRun env (initState env rid niche sid)
            (bootWorld env sid rid niche)).final, rfl, ?_, ?_, ?_⟩
  · cases hn : (pipelineRun env (initState env rid niche sid)
        (bootWorld env sid rid niche)).final.errors with
    | nil => simp [hn]
    | cons e es => simp [hn]
  · cases hn : (pipelineRun env (initState env rid niche sid)
        (bootWorld env sid rid niche)).final.errors with
    | nil => simp [hn]
    | cons e es => simp [hn]
  · simp

/-- C3 witness: the all-success environment yields status complete with
an empty errors list and the done event after the status write. -/
theorem final_status_iff_errors_empty_witness :
    ({} : Env).createSession = .ok "session-1" ∧
    ({} : Env).bootWrite = .ok () ∧
    (∃ (pre : List Act) (fs : AgentState),
      (runGraph {} 3 "niche x").finalState = some fs ∧
      ((runGraph {} 3 "niche x").status = "complete" ↔ fs.errors = []) ∧
      ((runGraph {} 3 "niche x").status = "complete_with_warnings" ↔
          fs.errors ≠ []) ∧
      (runGraph {} 3 "niche x").acts =
        pre ++ [Act.setStatus (runGraph {} 3 "niche x").status,
                Act.emit (Ev.done (some fs.errors.length)
                  (some (({} : Env).nowMs - ({} : Env).startedAtMs)))]) :=
  ⟨rfl, rfl, final_status_iff_errors_empty {} 3 "niche x" "session-1" rfl rfl⟩

/-- C4 counterexample: the niche string of raw length 3 whose trimmed
length is under 3 is rejected with 400 and registers no run, so
startRun does not succeed for every niche string of length at least 3. -/
theorem start_raw_length_counterexample :
    (" a ").length = 3 ∧
    (postStart (some " a ") { nextId := 0, runs := [] } 0).1.statusCode = 400 ∧
    (postStart (some " a ") { nextId := 0, runs := [] } 0).1.runId = none ∧
    (postStart (some " a ") { nextId := 0, runs := [] } 0).2.runs = [] := by
  decide

/-- C4 (amended): for every niche whose trimmed length is at least 3
the start handler accepts with 202 and a run identifier fresh for the
well-formed registry (hence distinct from every other call's), the
record registers in status running, well-formedness is preserved, and
any absent or under-3-after-trim niche is rejected with 400 without
registration. -/
theorem start_trimmed_validation_fresh_id (niche : String) (srv : Server)
    (nowMs : Int) (hwf : ServerWF srv) (hlen : 3 ≤ (jsTrim niche).length) :
    (postStart (some niche) srv nowMs).1.statusCode = 202 ∧
    (postStart (some niche) srv nowMs).1.runId = some srv.nextId ∧
    getActiveRun srv srv.nextId = none ∧
    getActiveRun (postStart (some niche) srv nowMs).2 srv.nextId =
      some { status := "running", niche := jsTrim niche, startedAtMs := nowMs } ∧
    ServerWF (postStart (some niche) srv nowMs).2 ∧
    (∀ bad : String, (jsTrim bad).length < 3 →
      postStart (some bad) srv nowMs =
        ({ statusCode := 400, runId := none }, srv)) ∧
    postStart none srv nowMs = ({ statusCode := 400, runId := none }, srv) := by
  have hno : ¬ (jsTrim niche).length < 3 := by omega
  refine ⟨?_, ?_, getActiveRun_fresh srv hwf, ?_, ?_, ?_, rfl⟩
  · simp [postStart, hno, startRun]
  · simp [postStart, hno, startRun]
  · simp [postStart, hno, startRun, getActiveRun, mapGet_mapSet_self]
  · have h2 := startRun_WF srv (jsTrim niche) nowMs hwf
    simpa [postStart, hno] using h2
  · intro bad hbad
    simp [postStart, hbad]

/-- C4 witness: a concrete accepted niche on the empty registry. -/
theorem start_trimmed_validation_fresh_id_witness :
    ServerWF { nextId := 0, runs := [] } ∧
    3 ≤ (jsTrim "freelance designers").length ∧
    (postStart (some "freelance designers") { nextId := 0, runs := [] }
        11).1.statusCode = 202 ∧
    getActiveRun (postStart (some "freelance designers")
        { nextId := 0, runs := [] } 11).2 0 =
      some { status := "running", niche := "freelance designers",
             startedAtMs := 11 } := by
  have hwf : ServerWF { nextId := 0, runs := [] } := by
    intro p hp
    cases hp
  have h := start_trimmed_validation_fresh_id "freelance designers"
    { nextId := 0, runs := [] } 11 hwf (by decide)
  exact ⟨hwf, by decide, h.1, h.2.2.2.1⟩

/-- C5 counterexample: under the all-success environment the Brief
phase starts but never emits phase_complete, while the run still ends
complete — so not every phase emits phase_complete on exit. -/
theorem brief_no_phase_complete_counterexample :
    Ev.phase_start Phase.brief ∈ (runGraph {} 0 "solo content creators").events ∧
    Ev.phase_complete Phase.brief ∉
      (runGraph {} 0 "solo content creators").events ∧
    (runGraph {} 0 "solo content creators").status = "complete" := by
  decide

/-- C5 (amended): on every run with a successful bootstrap each of the
four phases emits exactly one phase_start; Scout, Brain and Validate
emit exactly one phase_complete each — unconditionally, also on their
degraded paths — while Brief emits none. -/
theorem phase_lifecycle_events (env : Env) (rid : Nat) (niche sid : String)
    (h1 : env.createSession = .ok sid) (h2 : env.bootWrite = .ok ()) :
    (∀ ph : Phase,
      ((runGraph env rid niche).events).countP (isPhaseStart ph) = 1) ∧
    (∀ ph : Phase,
      ((runGraph env rid niche).events).countP (isPhaseComplete ph) =
        if ph = Phase.brief then 0 else 1) := by
  constructor
  · intro ph
    rw [runGraph_events_ok env rid niche sid h1 h2, List.countP_append,
      List.countP_append,
      pipelineRun_countP env _ _ (isPhaseStart ph) _ _ _ _
        (fun s w => scoutNode_countP_start env s w ph)
        (fun s w => brainNode_countP_start env s w ph)
        (fun s w => validateNode_countP_start env s w ph)
        (fun s w => briefNode_countP_start env s w ph)]
    cases ph <;> simp [isPhaseStart, List.countP_cons]
  · intro ph
    rw [runGraph_events_ok env rid niche sid h1 h2, List.countP_append,
      List.countP_append,
      pipelineRun_countP env _ _ (isPhaseComplete ph) _ _ _ _
        (fun s w => scoutNode_countP_complete env s w ph)
        (fun s w => brainNode_countP_complete env s w ph)
        (fun s w => validateNode_countP_complete env s w ph)
        (fun s w => briefNode_countP_complete env s w ph)]
    cases ph <;> simp [isPhaseComplete, List.countP_cons]

/-- C5 witness: the amended lifecycle property at the all-success
environment. -/
theorem phase_lifecycle_events_witness :
    ({} : Env).createSession = .ok "session-1" ∧
    ({} : Env).bootWrite = .ok () ∧
    ((∀ ph : Phase,
      ((runGraph {} 2 "indie devs").events).countP (isPhaseStart ph) = 1) ∧
    (∀ ph : Phase,
      ((runGraph {} 2 "indie devs").events).countP (isPhaseComplete ph) =
        if ph = Phase.brief then 0 else 1)) :=
  ⟨rfl, rfl, phase_lifecycle_events {} 2 "indie devs" "session-1" rfl rfl⟩

/-- Environment of a run started without OPENAI_API_KEY: every call
into llmService rejects with the getClient error; cleanAndFilterPosts
catches its own call internally. -/
def envNoOpenAI : Env :=
  { cleanKeep := .error "OPENAI_API_KEY is not set in .env",
    extract := .error "OPENAI_API_KEY is not set in .env",
    rank := .error "OPENAI_API_KEY is not set in .env",
    analyse := .error "OPENAI_API_KEY is not set in .env",
    genBrief := .error "OPENAI_API_KEY is not set in .env" }

/-- C6 counterexample: with the Reasoning Provider credential absent
the run does not transition directly to terminal status error — it runs
all phases (phase_start events are emitted beyond run_start) and ends
complete_with_warnings. -/
theorem missing_reasoning_key_counterexample :
    (runGraph envNoOpenAI 0 "indie hackers").status =
      "complete_with_warnings" ∧
    (runGraph envNoOpenAI 0 "indie hackers").status ≠ "error" ∧
    Ev.phase_start Phase.scout ∈ (runGraph envNoOpenAI 0 "indie hackers").events ∧
    Ev.phase_start Phase.brief ∈ (runGraph envNoOpenAI 0 "indie hackers").events ∧
    Ev.phase_warning Phase.brain
        ("Analysis degraded: OPENAI_API_KEY is not set in .env") ∈
      (runGraph envNoOpenAI 0 "indie hackers").events := by
  decide

/-- C6 (amended): absence of the Reasoning Provider credential is not
run-fatal: it surfaces inside the phases that call the provider — the
run still starts all four phases, the Brain phase records the failure
and emits exactly one brain phase_warning, and the terminal status is
complete_with_warnings, not error.  (The credential check happens at
the provider's first call, not at process startup.) -/
theorem missing_reasoning_key_degrades (env : Env) (rid : Nat)
    (niche sid k1 k2 k3 : String)
    (h1 : env.createSession = .ok sid) (h2 : env.bootWrite = .ok ())
    (h3 : env.extract = .error k1) (_h4 : env.analyse = .error k2)
    (_h5 : env.genBrief = .error k3) :
    (runGraph env rid niche).status = "complete_with_warnings" ∧
    ((runGraph env rid niche).events).countP (isPhaseWarning .brain) = 1 ∧
    (∀ ph : Phase,
      ((runGraph env rid niche).events).countP (isPhaseStart ph) = 1) := by
  have hbmem : ∀ (s : AgentState) (w : World),
      ({ phase := .brain, message := k1 } : PhaseError) ∈
        (brainNode env s w).2.1.errors := by
    intro s w
    simp [brainNode, brainCatch, h3]
  refine ⟨?_, ?_, ?_⟩
  · rw [runGraph_ok env rid niche sid h1 h2]
    have hmem := pipelineRun_mem_errors_brain env
      (initState env rid niche sid) (bootWorld env sid rid niche) _ hbmem
    have hne : (pipelineRun env (initState env rid niche sid)
        (bootWorld env sid rid niche)).final.errors.length ≠ 0 := by
      intro hc
      rw [List.length_eq_zero.mp hc] at hmem
      cases hmem
    simp [hne]
  · rw [runGraph_events_ok env rid niche sid h1 h2, List.countP_append,
      List.countP_append,
      pipelineRun_countP env _ _ (isPhaseWarning .brain) 0 1 0 0
        (scoutNode_countP_warn_brain env)
        (fun s w => brainNode_countP_warn_brain env s w k1 h3)
        (validateNode_countP_warn_brain env)
        (briefNode_countP_warn_brain env)]
    simp [isPhaseWarning, List.countP_cons]
  · intro ph
    rw [runGraph_events_ok env rid niche sid h1 h2, List.countP_append,
      List.countP_append,
      pipelineRun_countP env _ _ (isPhaseStart ph) _ _ _ _
        (fun s w => scoutNode_countP_start env s w ph)
        (fun s w => brainNode_countP_start env s w ph)
        (fun s w => validateNode_countP_start env s w ph)
        (fun s w => briefNode_countP_start env s w ph)]
    cases ph <;> simp [isPhaseStart, List.countP_cons]

/-- C6 witness: the amended degradation property at the concrete
missing-credential environment. -/
theorem missing_reasoning_key_degrades_witness :
    envNoOpenAI.createSession = .ok "session-1" ∧
    envNoOpenAI.bootWrite = .ok () ∧
    envNoOpenAI.extract = .error "OPENAI_API_KEY is not set in .env" ∧
    envNoOpenAI.analyse = .error "OPENAI_API_KEY is not set in .env" ∧
    envNoOpenAI.genBrief = .error "OPENAI_API_KEY is not set in .env" ∧
    (runGraph envNoOpenAI 4 "solo saas founders").status =
      "complete_with_warnings" ∧
    ((runGraph envNoOpenAI 4 "solo saas founders").events).countP
      (isPhaseWarning .brain) = 1 :=
  ⟨rfl, rfl, rfl, rfl, rfl,
   (missing_reasoning_key_degrades envNoOpenAI 4 "solo saas founders"
     "session-1" _ _ _ rfl rfl rfl rfl rfl).1,
   (missing_reasoning_key_degrades envNoOpenAI 4 "solo saas founders"
     "session-1" _ _ _ rfl rfl rfl rfl rfl).2.1⟩

/-- C7: when learning-space setup fails (and the session bootstrap
succeeds) the run is not terminated: all four phases start, exactly one
done is emitted, the final state carries an absent space identifier
and the terminal status is not error. -/
theorem space_setup_failure_nonfatal (env : Env) (rid : Nat)
    (niche sid m : String)
    (h1 : env.createSession = .ok sid) (h2 : env.createSpace = .error m)
    (h3 : env.bootWrite = .ok ()) :
    ∃ fs : AgentState,
      (runGraph env rid niche).finalState = some fs ∧
      fs.spaceId = none ∧
      ((runGraph env rid niche).events).countP isDone = 1 ∧
      (∀ ph : Phase,
        ((runGraph env rid niche).events).countP (isPhaseStart ph) = 1) ∧
      (runGraph env rid niche).status ≠ "error" := by
  refine ⟨(pipelineRun env (initState env rid niche sid)
      (bootWorld env sid rid niche)).final, ?_, ?_, ?_, ?_, ?_⟩
  · rw [runGraph_ok env rid niche sid h1 h3]
  · rw [pipelineRun_spaceId]
    simp [initState, createLearningSpace, h2, Except.toOption]
  · rw [runGraph_events_ok env rid niche sid h1 h3, List.countP_append,
      List.countP_append,
      pipelineRun_countP env _ _ isDone 0 0 0 0
        (scoutNode_countP_done env) (brainNode_countP_done env)
        (validateNode_countP_done env) (briefNode_countP_done env)]
    simp [isDone, List.countP_cons]
  · intro ph
    rw [runGraph_events_ok env rid niche sid h1 h3, List.countP_append,
      List.countP_append,
      pipelineRun_countP env _ _ (isPhaseStart ph) _ _ _ _
        (fun s w => scoutNode_countP_start env s w ph)
        (fun s w => brainNode_countP_start env s w ph)
        (fun s w => validateNode_countP_start env s w ph)
        (fun s w => briefNode_countP_start env s w ph)]
    cases ph <;> simp [isPhaseStart, List.countP_cons]
  · rw [runGraph_ok env rid niche sid h1 h3]
    cases hn : (pipelineRun env (initState env rid niche sid)
        (bootWorld env sid rid niche)).final.errors with
    | nil => simp [hn]
    | cons e es => simp [hn]

/-- C7 witness: a concrete run whose space creation rejects still
completes all phases with a null space identifier. -/
theorem space_setup_failure_nonfatal_witness :
    ({ createSpace := .error "learn failed" } : Env).createSession =
      .ok "session-1" ∧
    ({ createSpace := .error "learn failed" } : Env).createSpace =
      .error "learn failed" ∧
    ({ createSpace := .error "learn failed" } : Env).bootWrite = .ok () ∧
    (∃ fs : AgentState,
      (runGraph { createSpace := .error "learn failed" } 5
          "youtube automation").finalState = some fs ∧
      fs.spaceId = none ∧
      ((runGraph { createSpace := .error "learn failed" } 5
          "youtube automation").events).countP isDone = 1 ∧
      (∀ ph : Phase,
        ((runGraph { createSpace := .error "learn failed" } 5
            "youtube automation").events).countP (isPhaseStart ph) = 1) ∧
      (runGraph { createSpace := .error "learn failed" } 5
          "youtube automation").status ≠ "error") :=
  ⟨rfl, rfl, rfl,
   space_setup_failure_nonfatal { createSpace := .error "learn failed" } 5
     "youtube automation" "session-1" "learn failed" rfl rfl rfl⟩

/-- C8: collected search results merged into state are deduplicated by
URL — any nonempty url occurring in the collected batch (even several
times with different titles) occurs exactly once after the merge — and
re-merging the same batch does not grow the collection. -/
theorem search_results_deduped_by_url :
    (∀ (env : Env) (niche u : String), jsTrim niche ≠ "" → u ≠ "" →
      (∃ r ∈ env.scoutAllResults, r.url = u) →
      ((searchRedditPainPoints env niche).countP
        fun r => decide (r.url = u)) = 1) ∧
    (∀ xs : List SearchResult, uniqueByUrl (xs ++ xs) [] = uniqueByUrl xs []) := by
  constructor
  · intro env niche u hn hu hex
    rw [searchRedditPainPoints, if_neg hn,
      uniqueByUrl_countP u hu env.scoutAllResults []]
    simp [hex]
  · exact uniqueByUrl_self_append

/-- C8 witness: two entries with the same url and different titles
collapse to a single entry. -/
theorem search_results_deduped_by_url_witness :
    jsTrim "indie makers" ≠ "" ∧
    ("https://reddit.com/r/a" : String) ≠ "" ∧
    (∃ r ∈ [({ url := "https://reddit.com/r/a", title := "first",
               snippet := "s1" } : SearchResult),
            { url := "https://reddit.com/r/a", title := "second",
              snippet := "s2" },
            { url := "https://reddit.com/r/b", title := "third",
              snippet := "s3" }], r.url = "https://reddit.com/r/a") ∧
    ((searchRedditPainPoints
        { scoutAllResults :=
            [{ url := "https://reddit.com/r/a", title := "first",
               snippet := "s1" },
             { url := "https://reddit.com/r/a", title := "second",
               snippet := "s2" },
             { url := "https://reddit.com/r/b", title := "third",
               snippet := "s3" }] } "indie makers").countP
      fun r => decide (r.url = "https://reddit.com/r/a")) = 1 :=
  ⟨by decide, by decide, by decide,
   search_results_deduped_by_url.1
     { scoutAllResults :=
         [{ url := "https://reddit.com/r/a", title := "first",
            snippet := "s1" },
          { url := "https://reddit.com/r/a", title := "second",
            snippet := "s2" },
          { url := "https://reddit.com/r/b", title := "third",
            snippet := "s3" }] }
     "indie makers" "https://reddit.com/r/a" (by decide) (by decide)
     (by decide)⟩

/-- C9: on a run whose Brief phase reaches report_ready, the event
stream carries exactly one report_ready event and its payload is
exactly what readReport returns against the final report store — no
write happens between building the payload and a later retrieval. -/
theorem report_ready_roundtrip (env : Env) (rid : Nat) (niche sid : String)
    (b : Brief) (h1 : env.createSession = .ok sid)
    (h2 : env.bootWrite = .ok ()) (h3 : env.genBrief = .ok b)
    (h4 : env.flush = .ok ()) (h5 : env.briefWrite = .ok ())
    (h6 : env.briefStore = .ok ()) :
    ((runGraph env rid niche).events).filter isReportReady =
      [Ev.report_ready (readReport (runGraph env rid niche).world sid)] := by
  have hbrief : ∀ (s : AgentState) (w : World),
      ((briefNode env s w).1).filter isReportReady =
        [Ev.report_ready (readReport (briefNode env s w).2.2 s.sessionId)] :=
    fun s w => briefNode_filter_report_ok env s w b h3 h4 h5 h6
  rw [runGraph_ok env rid niche sid h1 h2]
  simp only [RunResult.events]
  simp only [List.filterMap_append, filterMap_eventOf_map_emit,
    filterMap_eventOf_comp_emit, List.filterMap_cons, Act.eventOf,
    List.filterMap_nil, List.filter_append, List.map_map]
  simp [pipelineRun, List.filter_append, scoutNode_filter_report,
    brainNode_filter_report, validateNode_filter_report, hbrief,
    isReportReady, applyUpdate_sessionId, initState]

/-- C9 witness: the round-trip equation at the all-success environment. -/
theorem report_ready_roundtrip_witness :
    ({} : Env).createSession = .ok "session-1" ∧
    ({} : Env).bootWrite = .ok () ∧
    ({} : Env).genBrief = .ok { headline := "" } ∧
    ({} : Env).flush = .ok () ∧
    ({} : Env).briefWrite = .ok () ∧
    ({} : Env).briefStore = .ok () ∧
    ((runGraph {} 6 "niche y").events).filter isReportReady =
      [Ev.report_ready (readReport (runGraph {} 6 "niche y").world
        "session-1")] :=
  ⟨rfl, rfl, rfl, rfl, rfl, rfl,
   report_ready_roundtrip {} 6 "niche y" "session-1" { headline := "" }
     rfl rfl rfl rfl rfl rfl⟩

/-- C10: start validation operates on the whitespace-trimmed niche:
an input whose trimmed length is under 3 is rejected with 400 and no
registration even when its raw length is 3 or more, and an accepted
input registers the trimmed string, not the raw one. -/
theorem start_trims_niche (raw : String) (srv : Server) (nowMs : Int) :
    ((jsTrim raw).length < 3 →
      postStart (some raw) srv nowMs =
        ({ statusCode := 400, runId := none }, srv)) ∧
    (3 ≤ (jsTrim raw).length →
      (postStart (some raw) srv nowMs).1.statusCode = 202 ∧
      getActiveRun (postStart (some raw) srv nowMs).2 srv.nextId =
        some { status := "running", niche := jsTrim raw,
               startedAtMs := nowMs }) := by
  constructor
  · intro h
    simp [postStart, h]
  · intro h
    have hno : ¬ (jsTrim raw).length < 3 := by omega
    constructor
    · simp [postStart, hno]
    · simp [postStart, hno, startRun, getActiveRun, mapGet_mapSet_self]

/-- C10 witness: a raw-length-3 niche that trims under the limit is
rejected, and an accepted padded niche registers its trimmed form. -/
theorem start_trims_niche_witness :
    (" a ").length = 3 ∧ (jsTrim " a ").length < 3 ∧
    postStart (some " a ") { nextId := 0, runs := [] } 9 =
      ({ statusCode := 400, runId := none }, { nextId := 0, runs := [] }) ∧
    3 ≤ (jsTrim "  indie hackers  ").length ∧
    getActiveRun (postStart (some "  indie hackers  ")
        { nextId := 0, runs := [] } 9).2 0 =
      some { status := "running", niche := "indie hackers",
             startedAtMs := 9 } := by
  refine ⟨by decide, by decide,
    (start_trims_niche " a " { nextId := 0, runs := [] } 9).1 (by decide),
    by decide, ?_⟩
  exact ((start_trims_niche "  indie hackers  "
    { nextId := 0, runs := [] } 9).2 (by decide)).2

end Claims

end AgentForge
